import Mathlib

/-!
Shallow embedding of the ElevateXY drone command-fusion core
(src/elevatexy_pynput.py).  The variant src/elevatexy_sim_tkinter.py
implements the methods the claims cite (_command_loop, the manual key
recompute, calculate_autonomous_commands, update_speeds, cleanup) with
line-for-line identical logic, so the pynput embedding settles the
claims that cite either file.

Modelling conventions:
* Velocities are exact rationals.  The source stores Python floats; every
  constant used by the claims (3.0, 0.5, 2.0, 4.5, 0.75, 0.35, 30, 20, 45)
  is transcribed as the literal decimal value.
* The source converts the yaw rate from degrees to radians with
  np.radians, i.e. multiplication by the fixed positive constant pi/180.
  Since pi is irrational, that constant is kept as an explicit parameter
  c throughout; every theorem about yaw is stated for the relevant class
  of c (all c, c nonzero, or c nonnegative).
* The pynput set keys_pressed (add / discard) is a Finset of the
  normalized key strings the listener produces.
* The dronekit vehicle handle is an Option: none models self.vehicle
  being None, and the armed flag models self.vehicle.armed.
-/

/- Flight mode parameters (class DroneParams of elevatexy_pynput.py). -/
namespace DroneParams

def STD_GND_SPEED : ℚ := 3
def STD_VZ_SPEED : ℚ := 1/2
def STD_YAW_RATE : ℚ := 30

def ECO_GND_SPEED : ℚ := 2
def ECO_VZ_SPEED : ℚ := 35/100
def ECO_YAW_RATE : ℚ := 20

def PERF_GND_SPEED : ℚ := 45/10
def PERF_VZ_SPEED : ℚ := 75/100
def PERF_YAW_RATE : ℚ := 45

end DroneParams

/-- Grid zones for face tracking (class GridZone; the source encodes them
as the integers 0..8, here an enumeration with the same names). -/
inductive GridZone where
  | TOP_LEFT
  | TOP_CENTER
  | TOP_RIGHT
  | CENTER_LEFT
  | CENTER
  | CENTER_RIGHT
  | BOTTOM_LEFT
  | BOTTOM_CENTER
  | BOTTOM_RIGHT
deriving DecidableEq, Repr

/-- The four-field velocity command (vx, vy, vz, yaw) shared between the
event handlers and the 10 Hz command loop: fields current_vx, current_vy,
current_vz, current_yaw of the controller object. -/
structure Vel where
  vx : ℚ
  vy : ℚ
  vz : ℚ
  yaw : ℚ
deriving DecidableEq, Repr

def zeroVel : Vel := ⟨0, 0, 0, 0⟩

/-- Dronekit vehicle handle as the core uses it: the armed flag read by
the guards, and the flight mode string written by the l / r handlers. -/
structure Vehicle where
  armed : Bool
  mode : String
deriving DecidableEq, Repr

/-- Controller state: the fields of ElevateXYPynput that the embedded
methods read or write. -/
structure DroneState where
  vehicle : Option Vehicle
  camera_active : Bool
  frame_width : ℕ
  frame_height : ℕ
  face_detected : Bool
  face_zone : GridZone
  autonomous_enabled : Bool
  flight_mode : String
  keys_pressed : Finset String
  move_speed : ℚ
  vertical_speed : ℚ
  yaw_rate : ℚ
  command_active : Bool
  current_vx : ℚ
  current_vy : ℚ
  current_vz : ℚ
  current_yaw : ℚ
deriving DecidableEq

/-- View of the shared four-field velocity command of a state. -/
def velOf (s : DroneState) : Vel :=
  ⟨s.current_vx, s.current_vy, s.current_vz, s.current_yaw⟩

/-- Method update_speeds: sets move_speed, vertical_speed and yaw_rate
from the flight_mode string; any string other than eco and performance
takes the standard branch (the final else). -/
def update_speeds (s : DroneState) : DroneState :=
  if s.flight_mode = "eco" then
    { s with move_speed := DroneParams.ECO_GND_SPEED,
             vertical_speed := DroneParams.ECO_VZ_SPEED,
             yaw_rate := DroneParams.ECO_YAW_RATE }
  else if s.flight_mode = "performance" then
    { s with move_speed := DroneParams.PERF_GND_SPEED,
             vertical_speed := DroneParams.PERF_VZ_SPEED,
             yaw_rate := DroneParams.PERF_YAW_RATE }
  else
    { s with move_speed := DroneParams.STD_GND_SPEED,
             vertical_speed := DroneParams.STD_VZ_SPEED,
             yaw_rate := DroneParams.STD_YAW_RATE }

/-- Method set_velocity: writes the four shared command fields. -/
def set_velocity (s : DroneState) (vx vy vz yaw : ℚ) : DroneState :=
  { s with current_vx := vx, current_vy := vy, current_vz := vz, current_yaw := yaw }

/-- Function np.radians as used on the yaw rate: multiplication by the
positive constant pi/180; the constant is the parameter c (pi being
irrational it has no exact rational value). -/
def radians (c deg : ℚ) : ℚ := deg * c

/-- Velocity computed by the body of process_manual_keys from the pressed
keys: each local starts at 0 and the if-statements overwrite it in source
order (w then s, a then d, q then e, left then right). -/
def manual_velocity (c : ℚ) (keys : Finset String) (move_speed vertical_speed yaw_rate : ℚ) : Vel :=
  let vx : ℚ := 0
  let vx := if "w" ∈ keys then move_speed else vx
  let vx := if "s" ∈ keys then -move_speed else vx
  let vy : ℚ := 0
  let vy := if "a" ∈ keys then -move_speed else vy
  let vy := if "d" ∈ keys then move_speed else vy
  let vz : ℚ := 0
  let vz := if "q" ∈ keys then -vertical_speed else vz
  let vz := if "e" ∈ keys then vertical_speed else vz
  let yaw : ℚ := 0
  let yaw := if "left" ∈ keys then -(radians c yaw_rate) else yaw
  let yaw := if "right" ∈ keys then radians c yaw_rate else yaw
  ⟨vx, vy, vz, yaw⟩

/-- Method process_manual_keys: returns unchanged when the vehicle handle
is absent or the vehicle is not armed, otherwise recomputes the velocity
from the pressed keys and publishes it with set_velocity. -/
def process_manual_keys (c : ℚ) (s : DroneState) : DroneState :=
  match s.vehicle with
  | none => s
  | some v =>
    if v.armed then
      let vv := manual_velocity c s.keys_pressed s.move_speed s.vertical_speed s.yaw_rate
      set_velocity s vv.vx vv.vy vv.vz vv.yaw
    else s

/-- Method cleanup: clears command_active and camera_active, then, when a
vehicle handle is present, writes the all-zero command into the shared
fields and closes the vehicle (the keyboard-listener stop, the 0.5 s
sleep, the camera release and the window teardown have no effect on this
state). -/
def cleanup (s : DroneState) : DroneState :=
  let s := { s with command_active := false, camera_active := false }
  match s.vehicle with
  | none => s
  | some _ =>
    let s := set_velocity s 0 0 0 0
    { s with vehicle := none }

/-- Method on_press for an already-normalized key string: adds the key to
keys_pressed, dispatches the special keys (each branch of the source
returns), and for any other key recomputes manual movement when not in
autonomous mode. -/
def on_press (c : ℚ) (k : String) (s : DroneState) : DroneState :=
  let s := { s with keys_pressed := insert k s.keys_pressed }
  if k = "space" then
    let s := { s with autonomous_enabled := !s.autonomous_enabled }
    if !s.autonomous_enabled then set_velocity s 0 0 0 0 else s
  else if k = "1" then
    update_speeds { s with flight_mode := "eco" }
  else if k = "2" then
    update_speeds { s with flight_mode := "standard" }
  else if k = "3" then
    update_speeds { s with flight_mode := "performance" }
  else if k = "t" ∧ s.vehicle.isSome then
    s
  else if k = "l" ∧ s.vehicle.isSome then
    { s with vehicle := s.vehicle.map (fun v => { v with mode := "LAND" }),
             autonomous_enabled := false }
  else if k = "r" ∧ s.vehicle.isSome then
    { s with vehicle := s.vehicle.map (fun v => { v with mode := "RTL" }),
             autonomous_enabled := false }
  else if k = "esc" then
    cleanup s
  else
    if !s.autonomous_enabled then process_manual_keys c s else s

/-- Method on_release for an already-normalized key string: discards the
key from keys_pressed and recomputes manual movement when not in
autonomous mode. -/
def on_release (c : ℚ) (k : String) (s : DroneState) : DroneState :=
  let s := { s with keys_pressed := s.keys_pressed.erase k }
  if !s.autonomous_enabled then process_manual_keys c s else s

/-- Key-event alphabet of the pynput listener: a press or a release of a
normalized key string. -/
inductive KeyEvent where
  | press (k : String)
  | release (k : String)
deriving DecidableEq

/-- Dispatch of one listener callback. -/
def handle_event (c : ℚ) (s : DroneState) : KeyEvent → DroneState
  | .press k => on_press c k s
  | .release k => on_release c k s

/-- Folding a whole sequence of listener callbacks over the state. -/
def run_events (c : ℚ) (s : DroneState) (es : List KeyEvent) : DroneState :=
  es.foldl (handle_event c) s

/-- Constructor of ElevateXYPynput: no vehicle yet, 640 x 480 frame, no
face, CENTER zone, manual mode, standard flight mode with update_speeds
applied, empty key set, command sender inactive, all-zero command. -/
def initState : DroneState :=
  update_speeds
    { vehicle := none
      camera_active := false
      frame_width := 640
      frame_height := 480
      face_detected := false
      face_zone := GridZone.CENTER
      autonomous_enabled := false
      flight_mode := "standard"
      keys_pressed := ∅
      move_speed := 0
      vertical_speed := 0
      yaw_rate := 0
      command_active := false
      current_vx := 0
      current_vy := 0
      current_vz := 0
      current_yaw := 0 }

/-- Successful connect_drone followed by arming state v: installs the
vehicle handle (connection details are external). -/
def with_vehicle (s : DroneState) (v : Vehicle) : DroneState :=
  { s with vehicle := some v }

/-- Method setup_grid_zones: the nine zone rectangles (x1, y1, x2, y2) in
the insertion order of the source dictionary, built with integer division
of the frame dimensions by 3. -/
def setup_grid_zones (fw fh : ℕ) : List (GridZone × ℕ × ℕ × ℕ × ℕ) :=
  let col_width := fw / 3
  let row_height := fh / 3
  [ (GridZone.TOP_LEFT, 0, 0, col_width, row_height),
    (GridZone.TOP_CENTER, col_width, 0, col_width * 2, row_height),
    (GridZone.TOP_RIGHT, col_width * 2, 0, fw, row_height),
    (GridZone.CENTER_LEFT, 0, row_height, col_width, row_height * 2),
    (GridZone.CENTER, col_width, row_height, col_width * 2, row_height * 2),
    (GridZone.CENTER_RIGHT, col_width * 2, row_height, fw, row_height * 2),
    (GridZone.BOTTOM_LEFT, 0, row_height * 2, col_width, fh),
    (GridZone.BOTTOM_CENTER, col_width, row_height * 2, col_width * 2, fh),
    (GridZone.BOTTOM_RIGHT, col_width * 2, row_height * 2, fw, fh) ]

/-- Loop of get_face_zone over the zone dictionary: return the first
zone whose rectangle satisfies x1 <= x < x2 and y1 <= y < y2. -/
def find_zone (x y : ℕ) : List (GridZone × ℕ × ℕ × ℕ × ℕ) → Option GridZone
  | [] => none
  | (z, x1, y1, x2, y2) :: rest =>
    if x1 ≤ x ∧ x < x2 ∧ y1 ≤ y ∧ y < y2 then some z else find_zone x y rest

/-- Method get_face_zone: first zone of the dictionary whose rectangle
contains (x, y); CENTER when none matches. -/
def get_face_zone (fw fh : ℕ) (x y : ℕ) : GridZone :=
  (find_zone x y (setup_grid_zones fw fh)).getD GridZone.CENTER

/-- Velocity written by calculate_autonomous_commands: zero when no face
is detected or the face is in the CENTER zone; otherwise vy is signed by
column membership, vz by row membership, vx and yaw stay 0. -/
def auto_velocity (move_speed vertical_speed : ℚ) (face_detected : Bool) (face_zone : GridZone) : Vel :=
  if face_detected = false ∨ face_zone = GridZone.CENTER then zeroVel
  else
    let vx : ℚ := 0
    let vy : ℚ := 0
    let vz : ℚ := 0
    let vy := if face_zone ∈ [GridZone.TOP_LEFT, GridZone.CENTER_LEFT, GridZone.BOTTOM_LEFT]
      then -move_speed
      else if face_zone ∈ [GridZone.TOP_RIGHT, GridZone.CENTER_RIGHT, GridZone.BOTTOM_RIGHT]
      then move_speed else vy
    let vz := if face_zone ∈ [GridZone.TOP_LEFT, GridZone.TOP_CENTER, GridZone.TOP_RIGHT]
      then -vertical_speed
      else if face_zone ∈ [GridZone.BOTTOM_LEFT, GridZone.BOTTOM_CENTER, GridZone.BOTTOM_RIGHT]
      then vertical_speed else vz
    ⟨vx, vy, vz, 0⟩

/-- Method calculate_autonomous_commands on the state: publishes the
auto_velocity of the current detection flag and zone. -/
def calculate_autonomous_commands (s : DroneState) : DroneState :=
  let vv := auto_velocity s.move_speed s.vertical_speed s.face_detected s.face_zone
  set_velocity s vv.vx vv.vy vv.vz vv.yaw

/-- Detection commit of detect_face: on a detection at pixel center
(cx, cy) it stores the zone of that center and sets face_detected; with
no detection it only clears face_detected (the stale zone stays). -/
def commit_detection (s : DroneState) (det : Option (ℕ × ℕ)) : DroneState :=
  match det with
  | some p =>
    { s with face_zone := get_face_zone s.frame_width s.frame_height p.1 p.2,
             face_detected := true }
  | none => { s with face_detected := false }

/-- One wake-up of the 10 Hz loop body of _command_loop, given that the
while-condition command_active was observed true: the message handed to
send_mavlink, none when the vehicle handle is absent or the vehicle is
not armed (the tick then transmits nothing). -/
def command_loop_send (s : DroneState) : Option Vel :=
  match s.vehicle with
  | none => none
  | some v =>
    if v.armed then some ⟨s.current_vx, s.current_vy, s.current_vz, s.current_yaw⟩
    else none

/-!
Interleaving model of the streamer thread against the cleanup path, for
the shutdown claims.  The streamer thread repeatedly evaluates the loop
of _command_loop; the main thread runs cleanup, whose two writes that
the streamer can observe are, in source order,
  (1) self.command_active = False
  (2) self.set_velocity(0, 0, 0, 0).
A system step is one of those two writes or one whole loop iteration
(check of command_active, then the armed guard and the send).
-/

/-- Joint state of the streamer system: the controller state plus the log
of velocity commands transmitted so far, most recent first. -/
structure SysState where
  ctrl : DroneState
  sent : List Vel
deriving DecidableEq

/-- Atomic steps of the shutdown interleaving: a full streamer loop
iteration, the command_active clear of cleanup, and the all-zero
set_velocity of cleanup. -/
inductive SysEvent where
  | tick
  | deactivate
  | publishZero
deriving DecidableEq

/-- Small-step semantics of the shutdown interleaving.  A tick transmits
the current snapshot only when command_active is still true and the
armed guard passes; after deactivate the loop condition fails and the
iteration does nothing. -/
def sys_step (s : SysState) : SysEvent → SysState
  | .tick =>
    if s.ctrl.command_active then
      match command_loop_send s.ctrl with
      | some vv => { s with sent := vv :: s.sent }
      | none => s
    else s
  | .deactivate => { s with ctrl := { s.ctrl with command_active := false } }
  | .publishZero => { s with ctrl := set_velocity s.ctrl 0 0 0 0 }

/-- Running a list of interleaving steps. -/
def sys_run (s : SysState) (es : List SysEvent) : SysState :=
  es.foldl sys_step s

/-- A shutdown run: ticks of normal operation, then the cleanup writes in
their source order (deactivate before the zero publish), then the final
wake-ups of the loop thread before it exits. -/
def shutdown_run (s : SysState) (pre post : List SysEvent) : SysState :=
  sys_run (sys_run s (pre ++ [SysEvent.deactivate, SysEvent.publishZero])) post

/-- Last transmitted command of a system state, if any. -/
def lastSent (s : SysState) : Option Vel := s.sent.head?

/-- Profile selection with an arbitrary name: the operation the 1 / 2 / 3
key handlers perform with their fixed names, here with the name as a
parameter (the spec's set_profile): assign flight_mode, then
update_speeds. -/
def set_flight_mode (s : DroneState) (name : String) : DroneState :=
  update_speeds { s with flight_mode := name }

/-- Keys with dedicated branches in on_press; every other key falls
through to the manual-movement recompute. -/
def specialKeys : List String := ["space", "1", "2", "3", "t", "l", "r", "esc"]

/-- The three rate triples update_speeds can install (standard, eco,
performance). -/
def RatesTriple (m vz yr : ℚ) : Prop :=
  (m = DroneParams.STD_GND_SPEED ∧ vz = DroneParams.STD_VZ_SPEED ∧
    yr = DroneParams.STD_YAW_RATE) ∨
  (m = DroneParams.ECO_GND_SPEED ∧ vz = DroneParams.ECO_VZ_SPEED ∧
    yr = DroneParams.ECO_YAW_RATE) ∨
  (m = DroneParams.PERF_GND_SPEED ∧ vz = DroneParams.PERF_VZ_SPEED ∧
    yr = DroneParams.PERF_YAW_RATE)

/-- Componentwise bound of a velocity command by the performance
profile's rates, the pointwise maximum of the three profiles. -/
def BoundedVel (c : ℚ) (vv : Vel) : Prop :=
  |vv.vx| ≤ DroneParams.PERF_GND_SPEED ∧
  |vv.vy| ≤ DroneParams.PERF_GND_SPEED ∧
  |vv.vz| ≤ DroneParams.PERF_VZ_SPEED ∧
  |vv.yaw| ≤ radians c DroneParams.PERF_YAW_RATE

/-- Event-loop invariant: the active rates are one of the three profile
triples and the published command is bounded by the performance rates. -/
def CoreInv (c : ℚ) (s : DroneState) : Prop :=
  RatesTriple s.move_speed s.vertical_speed s.yaw_rate ∧ BoundedVel c (velOf s)

/-- Perception pipeline on a present observation at pixel (x, y) of the
640 x 480 frame: detect_face commits the zone of the detection center
through get_face_zone, and calculate_autonomous_commands maps that zone
to the published velocity. -/
def observed_velocity (move_speed vertical_speed : ℚ) (x y : ℕ) : Vel :=
  auto_velocity move_speed vertical_speed true (get_face_zone 640 480 x y)

/-- Claim C8: zone classification is a pure function of
(x, y, frame width, frame height) with half-open rectangles (low x / y
edge included, high edge excluded): in a 640 x 480 frame, pixel (0,0) is
TOP_LEFT and pixel (320,240) is CENTER; each interior boundary is
checked from both sides (columns split at 213 and 426, rows at 160 and
320). -/
theorem C8_zone_classification :
    get_face_zone 640 480 0 0 = GridZone.TOP_LEFT ∧
    get_face_zone 640 480 320 240 = GridZone.CENTER ∧
    (get_face_zone 640 480 212 0 = GridZone.TOP_LEFT ∧
     get_face_zone 640 480 213 0 = GridZone.TOP_CENTER) ∧
    (get_face_zone 640 480 425 240 = GridZone.CENTER ∧
     get_face_zone 640 480 426 240 = GridZone.CENTER_RIGHT) ∧
    (get_face_zone 640 480 320 159 = GridZone.TOP_CENTER ∧
     get_face_zone 640 480 320 160 = GridZone.CENTER) ∧
    (get_face_zone 640 480 320 319 = GridZone.CENTER ∧
     get_face_zone 640 480 320 320 = GridZone.BOTTOM_CENTER) ∧
    (get_face_zone 640 480 212 159 = GridZone.TOP_LEFT ∧
     get_face_zone 640 480 213 160 = GridZone.CENTER) := by
  decide

/-- Claim C9: with the standard profile active (ground speed 3.0) and
exactly the forward key w held, the manual recompute on an armed vehicle
publishes the velocity vector (3.0, 0, 0, 0). -/
theorem C9_standard_forward (c : ℚ) (s : DroneState) (v : Vehicle)
    (hv : s.vehicle = some v) (ha : v.armed = true)
    (hm : s.flight_mode = "standard") (hk : s.keys_pressed = {"w"}) :
    velOf (process_manual_keys c (update_speeds s)) = ⟨3, 0, 0, 0⟩ := by
  simp [update_speeds, hm, process_manual_keys, hv, ha, hk, manual_velocity,
    set_velocity, velOf, radians, DroneParams.STD_GND_SPEED,
    DroneParams.STD_VZ_SPEED, DroneParams.STD_YAW_RATE]

/-- Witness for C9 at a concrete armed state holding only w. -/
theorem C9_standard_forward_witness :
    velOf (process_manual_keys 1 (update_speeds
      { with_vehicle initState ⟨true, "GUIDED"⟩ with keys_pressed := {"w"} })) =
      ⟨3, 0, 0, 0⟩ :=
  C9_standard_forward 1 _ ⟨true, "GUIDED"⟩ rfl rfl rfl rfl

/-- Claim C3: a streamer tick on a vehicle that reports not armed hands
nothing to the link (no substitute command); a tick on an armed vehicle
hands the link exactly one command, the current snapshot of the four
shared fields. -/
theorem C3_tick_armed_gate (s : DroneState) (v : Vehicle)
    (hv : s.vehicle = some v) :
    (v.armed = false → command_loop_send s = none) ∧
    (v.armed = true → command_loop_send s = some (velOf s)) := by
  constructor <;> intro h <;> simp [command_loop_send, hv, h, velOf]

/-- Witness for C3 at concrete disarmed and armed states. -/
theorem C3_tick_armed_gate_witness :
    command_loop_send (with_vehicle initState ⟨false, "GUIDED"⟩) = none ∧
    command_loop_send (with_vehicle initState ⟨true, "GUIDED"⟩) =
      some (velOf (with_vehicle initState ⟨true, "GUIDED"⟩)) :=
  ⟨(C3_tick_armed_gate _ ⟨false, "GUIDED"⟩ rfl).1 rfl,
   (C3_tick_armed_gate _ ⟨true, "GUIDED"⟩ rfl).2 rfl⟩

/-- Helper: the manual recompute leaves the four shared fields unchanged
whenever the vehicle handle is absent or the vehicle is not armed. -/
theorem process_manual_keys_disarmed (c : ℚ) (s : DroneState)
    (hd : s.vehicle = none ∨ ∃ v, s.vehicle = some v ∧ v.armed = false) :
    process_manual_keys c s = s := by
  rcases hd with h | ⟨v, hv, ha⟩
  · simp [process_manual_keys, h]
  · simp [process_manual_keys, hv, ha]

/-- Claim C10: a key press of any non-special key and a key release of
any key, arriving while the vehicle reference is absent or the vehicle
is not armed, leave all four fields of the shared velocity command
unchanged; the manual recompute itself returns early with the whole
state unchanged. -/
theorem C10_disarmed_no_effect (c : ℚ) (k : String) (s : DroneState)
    (hd : s.vehicle = none ∨ ∃ v, s.vehicle = some v ∧ v.armed = false) :
    process_manual_keys c s = s ∧
    velOf (on_release c k s) = velOf s ∧
    (k ∉ specialKeys → velOf (on_press c k s) = velOf s) := by
  have hd1 : ∀ t : DroneState, t.vehicle = s.vehicle →
      process_manual_keys c t = t := by
    intro t ht
    refine process_manual_keys_disarmed c t ?_
    rw [ht]; exact hd
  refine ⟨hd1 s rfl, ?_, ?_⟩
  · unfold on_release
    dsimp only
    split
    · rw [hd1 { s with keys_pressed := s.keys_pressed.erase k } rfl]
      rfl
    · rfl
  · intro hk
    simp only [specialKeys, List.mem_cons, List.not_mem_nil, or_false,
      not_or] at hk
    obtain ⟨h1, h2, h3, h4, h5, h6, h7, h8⟩ := hk
    unfold on_press
    simp only [h1, h2, h3, h4, h5, h6, h7, h8, if_false, false_and, if_neg,
      not_false_eq_true]
    split
    · rw [hd1 { s with keys_pressed := insert k s.keys_pressed } rfl]
      rfl
    · rfl

/-- Witness for C10: pressing w and releasing w on a disarmed vehicle
leave the command fields unchanged. -/
theorem C10_disarmed_no_effect_witness :
    process_manual_keys 1 (with_vehicle initState ⟨false, "GUIDED"⟩) =
      with_vehicle initState ⟨false, "GUIDED"⟩ ∧
    velOf (on_release 1 "w" (with_vehicle initState ⟨false, "GUIDED"⟩)) =
      velOf (with_vehicle initState ⟨false, "GUIDED"⟩) ∧
    ("w" ∉ specialKeys →
      velOf (on_press 1 "w" (with_vehicle initState ⟨false, "GUIDED"⟩)) =
        velOf (with_vehicle initState ⟨false, "GUIDED"⟩)) :=
  C10_disarmed_no_effect 1 "w" _ (Or.inr ⟨⟨false, "GUIDED"⟩, rfl, rfl⟩)


/-- Claim C4 counterexample: with the standard profile on an armed
vehicle and both keys of the forward/backward pair held (w and s), the
manual recompute publishes vx = -3, not zero on that axis: the later
if-statement of the pair overwrites the earlier one. -/
theorem C4_counterexample :
    (process_manual_keys 1
      { with_vehicle initState ⟨true, "GUIDED"⟩ with
        keys_pressed := {"w", "s"} }).current_vx = -3 ∧ (-3 : ℚ) ≠ 0 := by
  decide

/-- Claim C4 amended: when both keys of an opposing pair are held, the
axis takes the value of the second-checked key of the pair rather than
zero: backward wins over forward (vx = -move_speed), right over left
(vy = move_speed), down over up (vz = vertical_speed), and yaw-right
over yaw-left (yaw = radians of the yaw rate). -/
theorem C4_opposing_keys_last_wins (c : ℚ) (s : DroneState) (v : Vehicle)
    (hv : s.vehicle = some v) (ha : v.armed = true) :
    ("w" ∈ s.keys_pressed → "s" ∈ s.keys_pressed →
      (process_manual_keys c s).current_vx = -s.move_speed) ∧
    ("a" ∈ s.keys_pressed → "d" ∈ s.keys_pressed →
      (process_manual_keys c s).current_vy = s.move_speed) ∧
    ("q" ∈ s.keys_pressed → "e" ∈ s.keys_pressed →
      (process_manual_keys c s).current_vz = s.vertical_speed) ∧
    ("left" ∈ s.keys_pressed → "right" ∈ s.keys_pressed →
      (process_manual_keys c s).current_yaw = radians c s.yaw_rate) := by
  refine ⟨?_, ?_, ?_, ?_⟩ <;> intro hA hB <;>
    simp [process_manual_keys, hv, ha, manual_velocity, set_velocity, hA, hB]

/-- Witness for the amended C4 with all four opposing pairs held. -/
theorem C4_opposing_keys_last_wins_witness :
    (process_manual_keys 1
      { with_vehicle initState ⟨true, "GUIDED"⟩ with
        keys_pressed := {"w", "s", "a", "d", "q", "e", "left", "right"} }).current_vx =
      -(({ with_vehicle initState ⟨true, "GUIDED"⟩ with
        keys_pressed := {"w", "s", "a", "d", "q", "e", "left", "right"} } : DroneState).move_speed) :=
  (C4_opposing_keys_last_wins 1 _ ⟨true, "GUIDED"⟩ rfl rfl).1
    (by decide) (by decide)

/-- Claim C2 counterexample: toggling from MANUAL into AUTONOMOUS with a
nonzero published command leaves the command unchanged within the toggle
call (the zeroing branch runs only when the toggle lands in MANUAL), so
entering AUTONOMOUS does not force (0,0,0,0). -/
theorem C2_counterexample :
    (on_press 1 "space"
      { with_vehicle initState ⟨true, "GUIDED"⟩ with
        current_vx := 3 }).autonomous_enabled = true ∧
    velOf (on_press 1 "space"
      { with_vehicle initState ⟨true, "GUIDED"⟩ with
        current_vx := 3 }) = ⟨3, 0, 0, 0⟩ ∧
    (⟨3, 0, 0, 0⟩ : Vel) ≠ zeroVel := by
  decide

/-- Claim C2 amended: the toggle zeroes the shared command only in the
AUTONOMOUS-to-MANUAL direction; in the MANUAL-to-AUTONOMOUS direction
the previously published command is left unchanged (it stays until the
next autonomous recompute of the camera loop, which writes zero when no
observation is present). -/
theorem C2_toggle_zero_only_into_manual (c : ℚ) (s : DroneState) :
    (s.autonomous_enabled = true →
      (on_press c "space" s).autonomous_enabled = false ∧
      velOf (on_press c "space" s) = zeroVel) ∧
    (s.autonomous_enabled = false →
      (on_press c "space" s).autonomous_enabled = true ∧
      velOf (on_press c "space" s) = velOf s) ∧
    (s.face_detected = false →
      velOf (calculate_autonomous_commands s) = zeroVel) := by
  refine ⟨?_, ?_, ?_⟩ <;> intro h <;>
    simp [on_press, h, set_velocity, velOf, zeroVel,
      calculate_autonomous_commands, auto_velocity]

/-- Witness for the amended C2 at a concrete autonomous state with a
nonzero command. -/
theorem C2_toggle_zero_only_into_manual_witness :
    velOf (on_press 1 "space"
      { with_vehicle initState ⟨true, "GUIDED"⟩ with
        autonomous_enabled := true, current_vy := 2 }) = zeroVel :=
  ((C2_toggle_zero_only_into_manual 1 _).1 rfl).2

/-- Claim C7 counterexample: selecting the unknown profile name turbo
after performance is not rejected: update_speeds takes its final else
branch, so the active rates become the standard profile's (ground speed
3) instead of retaining performance's (ground speed 4.5). -/
theorem C7_counterexample :
    (set_flight_mode initState "performance").move_speed = 45/10 ∧
    (set_flight_mode (set_flight_mode initState "performance") "turbo").move_speed = 3 ∧
    (set_flight_mode (set_flight_mode initState "performance") "turbo").flight_mode = "turbo" ∧
    (3 : ℚ) ≠ 45/10 := by
  refine ⟨rfl, rfl, rfl, by norm_num⟩

/-- Claim C7 amended: a profile name other than eco and performance is
not rejected; the stored mode becomes that name and the active rates
become the standard profile's regardless of the prior profile, and
subsequent recomputes use those standard rates. -/
theorem C7_unknown_name_falls_back_to_standard (s : DroneState) (name : String)
    (h1 : name ≠ "eco") (h2 : name ≠ "performance") :
    (set_flight_mode s name).flight_mode = name ∧
    (set_flight_mode s name).move_speed = DroneParams.STD_GND_SPEED ∧
    (set_flight_mode s name).vertical_speed = DroneParams.STD_VZ_SPEED ∧
    (set_flight_mode s name).yaw_rate = DroneParams.STD_YAW_RATE := by
  simp [set_flight_mode, update_speeds, h1, h2]

/-- Witness for the amended C7 at the unknown name turbo. -/
theorem C7_unknown_name_falls_back_to_standard_witness :
    (set_flight_mode initState "turbo").flight_mode = "turbo" ∧
    (set_flight_mode initState "turbo").move_speed = DroneParams.STD_GND_SPEED ∧
    (set_flight_mode initState "turbo").vertical_speed = DroneParams.STD_VZ_SPEED ∧
    (set_flight_mode initState "turbo").yaw_rate = DroneParams.STD_YAW_RATE :=
  C7_unknown_name_falls_back_to_standard initState "turbo" (by decide) (by decide)

/-- Claim C1 evaluation at the failing run: starting armed with the
shared command (3,0,0,0) and the streamer active, one streamer tick,
then cleanup's two observable writes in their source order (clear
command_active, then write the zero command), then the loop thread's
final wake-up.  The zero command ends up in the shared state but is
never transmitted: the transmission log is exactly the one pre-cleanup
send, so the last transmitted command is (3,0,0,0), not (0,0,0,0). -/
theorem C1_failing_run :
    (shutdown_run
      ⟨{ with_vehicle initState ⟨true, "GUIDED"⟩ with
         command_active := true, current_vx := 3 }, []⟩
      [SysEvent.tick] [SysEvent.tick]).sent = [⟨3, 0, 0, 0⟩] ∧
    lastSent (shutdown_run
      ⟨{ with_vehicle initState ⟨true, "GUIDED"⟩ with
         command_active := true, current_vx := 3 }, []⟩
      [SysEvent.tick] [SysEvent.tick]) = some ⟨3, 0, 0, 0⟩ ∧
    velOf (shutdown_run
      ⟨{ with_vehicle initState ⟨true, "GUIDED"⟩ with
         command_active := true, current_vx := 3 }, []⟩
      [SysEvent.tick] [SysEvent.tick]).ctrl = zeroVel ∧
    some (⟨3, 0, 0, 0⟩ : Vel) ≠ some zeroVel := by
  decide

/-- Claim C5 counterexample: pressing w under the standard profile on an
armed vehicle publishes vx = 3; then pressing 1 switches the active
profile to eco (ground speed 2) without recomputing, so the published
vx = 3 exceeds the currently active profile's ground speed bound. -/
theorem C5_counterexample :
    (run_events 1 (with_vehicle initState ⟨true, "GUIDED"⟩)
      [KeyEvent.press "w", KeyEvent.press "1"]).move_speed = 2 ∧
    (run_events 1 (with_vehicle initState ⟨true, "GUIDED"⟩)
      [KeyEvent.press "w", KeyEvent.press "1"]).current_vx = 3 ∧
    ¬(|(3 : ℚ)| ≤ 2) := by
  refine ⟨by decide, by decide, by norm_num⟩

theorem zeroVel_bounded (c : ℚ) (hc : 0 ≤ c) : BoundedVel c zeroVel := by
  unfold BoundedVel zeroVel radians DroneParams.PERF_GND_SPEED
    DroneParams.PERF_VZ_SPEED DroneParams.PERF_YAW_RATE
  norm_num
  linarith

theorem manual_velocity_bounded (c : ℚ) (hc : 0 ≤ c) (keys : Finset String)
    (m vz yr : ℚ) (h : RatesTriple m vz yr) :
    BoundedVel c (manual_velocity c keys m vz yr) := by
  unfold RatesTriple at h
  obtain ⟨hm, hv, hy⟩ | ⟨hm, hv, hy⟩ | ⟨hm, hv, hy⟩ := h <;> subst hm hv hy <;>
    simp only [BoundedVel, manual_velocity, radians, DroneParams.STD_GND_SPEED,
      DroneParams.STD_VZ_SPEED, DroneParams.STD_YAW_RATE, DroneParams.ECO_GND_SPEED,
      DroneParams.ECO_VZ_SPEED, DroneParams.ECO_YAW_RATE, DroneParams.PERF_GND_SPEED,
      DroneParams.PERF_VZ_SPEED, DroneParams.PERF_YAW_RATE] <;>
    refine ⟨?_, ?_, ?_, ?_⟩ <;> split_ifs <;>
    (rw [abs_le]; constructor <;> linarith)

theorem update_speeds_rates (s : DroneState) :
    RatesTriple (update_speeds s).move_speed (update_speeds s).vertical_speed
      (update_speeds s).yaw_rate := by
  unfold update_speeds RatesTriple
  split_ifs <;> simp

theorem velOf_update_speeds (s : DroneState) :
    velOf (update_speeds s) = velOf s := by
  unfold update_speeds
  split_ifs <;> rfl

theorem process_manual_keys_inv (c : ℚ) (hc : 0 ≤ c) (s : DroneState)
    (h : CoreInv c s) : CoreInv c (process_manual_keys c s) := by
  unfold process_manual_keys
  cases hv : s.vehicle with
  | none => exact h
  | some v =>
    by_cases ha : v.armed
    · simp only [ha, if_true]
      exact ⟨h.1, manual_velocity_bounded c hc _ _ _ _ h.1⟩
    · simp only [ha, if_false]
      exact h

theorem cleanup_inv (c : ℚ) (hc : 0 ≤ c) (s : DroneState)
    (h : CoreInv c s) : CoreInv c (cleanup s) := by
  unfold cleanup
  cases hv : s.vehicle with
  | none => exact h
  | some v => exact ⟨h.1, zeroVel_bounded c hc⟩

theorem handle_event_inv (c : ℚ) (hc : 0 ≤ c) (s : DroneState)
    (e : KeyEvent) (h : CoreInv c s) : CoreInv c (handle_event c s e) := by
  cases e with
  | press k =>
    show CoreInv c (on_press c k s)
    simp only [on_press]
    split_ifs
    · exact ⟨h.1, zeroVel_bounded c hc⟩
    · exact h
    · exact ⟨update_speeds_rates _, by rw [velOf_update_speeds]; exact h.2⟩
    · exact ⟨update_speeds_rates _, by rw [velOf_update_speeds]; exact h.2⟩
    · exact ⟨update_speeds_rates _, by rw [velOf_update_speeds]; exact h.2⟩
    · exact h
    · exact h
    · exact h
    · exact cleanup_inv c hc _ h
    · exact process_manual_keys_inv c hc _ h
    · exact h
  | release k =>
    show CoreInv c (on_release c k s)
    simp only [on_release]
    split_ifs
    · exact process_manual_keys_inv c hc _ h
    · exact h

theorem run_events_inv (c : ℚ) (hc : 0 ≤ c) (s : DroneState)
    (h : CoreInv c s) (es : List KeyEvent) : CoreInv c (run_events c s es) := by
  induction es generalizing s with
  | nil => exact h
  | cons e es ih => exact ih _ (handle_event_inv c hc s e h)

/-- Claim C5 amended: over every sequence of key press / release events
(profile changes included, as the 1 / 2 / 3 presses) from the freshly
constructed controller with any vehicle handle, each component of the
published command stays bounded by the performance profile's rates, the
pointwise maximum over the three profiles: |vx|, |vy| <= 4.5,
|vz| <= 0.75, |yaw| <= radians 45.  The bound by the currently active
profile's rates fails (see the counterexample): after a profile switch
the published vector is not rescaled until the next recompute. -/
theorem C5_bounded_by_max_profile (c : ℚ) (hc : 0 ≤ c) (v : Vehicle)
    (es : List KeyEvent) :
    BoundedVel c (velOf (run_events c (with_vehicle initState v) es)) := by
  refine (run_events_inv c hc _ ⟨?_, ?_⟩ es).2
  · exact Or.inl ⟨rfl, rfl, rfl⟩
  · exact zeroVel_bounded c hc

/-- Witness for the amended C5 on a concrete event sequence. -/
theorem C5_bounded_by_max_profile_witness :
    BoundedVel 1 (velOf (run_events 1
      (with_vehicle initState ⟨true, "GUIDED"⟩)
      [KeyEvent.press "3", KeyEvent.press "w", KeyEvent.press "1"])) :=
  C5_bounded_by_max_profile 1 (by norm_num) ⟨true, "GUIDED"⟩
    [KeyEvent.press "3", KeyEvent.press "w", KeyEvent.press "1"]

set_option maxHeartbeats 1000000 in
/-- Closed form of the zone classifier on the 640 x 480 frame: columns
are the half-open pixel bands [0,213), [213,426), [426,640) and rows are
[0,160), [160,320), [320,480); points outside the frame fall back to
CENTER. -/
theorem get_face_zone_640_480 (x y : ℕ) :
    get_face_zone 640 480 x y =
      if x < 213 then
        (if y < 160 then GridZone.TOP_LEFT
         else if y < 320 then GridZone.CENTER_LEFT
         else if y < 480 then GridZone.BOTTOM_LEFT else GridZone.CENTER)
      else if x < 426 then
        (if y < 160 then GridZone.TOP_CENTER
         else if y < 320 then GridZone.CENTER
         else if y < 480 then GridZone.BOTTOM_CENTER else GridZone.CENTER)
      else if x < 640 then
        (if y < 160 then GridZone.TOP_RIGHT
         else if y < 320 then GridZone.CENTER_RIGHT
         else if y < 480 then GridZone.BOTTOM_RIGHT else GridZone.CENTER)
      else GridZone.CENTER := by
  show (find_zone x y (setup_grid_zones 640 480)).getD GridZone.CENTER = _
  have hz : setup_grid_zones 640 480 =
    [ (GridZone.TOP_LEFT, 0, 0, 213, 160),
      (GridZone.TOP_CENTER, 213, 0, 426, 160),
      (GridZone.TOP_RIGHT, 426, 0, 640, 160),
      (GridZone.CENTER_LEFT, 0, 160, 213, 320),
      (GridZone.CENTER, 213, 160, 426, 320),
      (GridZone.CENTER_RIGHT, 426, 160, 640, 320),
      (GridZone.BOTTOM_LEFT, 0, 320, 213, 480),
      (GridZone.BOTTOM_CENTER, 213, 320, 426, 480),
      (GridZone.BOTTOM_RIGHT, 426, 320, 640, 480) ] := by decide
  rw [hz]
  simp only [find_zone, Nat.zero_le, true_and]
  split_ifs <;> first | rfl | omega

set_option maxHeartbeats 2000000 in
/-- Claim C6: for a present observation in the 640 x 480 frame under the
performance profile, the pipeline sets the horizontal component to plus
or minus ground speed only when the horizontal pixel offset from the
frame center (320, 240) exceeds the horizontal dead-zone threshold of
105 px induced by the center column of the grid, with the sign given by
left / right column membership; independently it sets the vertical
component to plus or minus vertical speed only when the vertical offset
exceeds its own 79 px threshold induced by the center row, signed by
top / bottom row membership; and zone TOP_RIGHT yields
(0, +ground_speed, -vertical_speed, 0). -/
theorem C6_deadzone_gating (x y : ℕ) :
    ((observed_velocity (45/10) (75/100) x y).vy ≠ 0 →
      105 < |(x : ℤ) - 320| ∧
      (((observed_velocity (45/10) (75/100) x y).vy = -(45/10) ∧ x < 213) ∨
       ((observed_velocity (45/10) (75/100) x y).vy = 45/10 ∧ 426 ≤ x))) ∧
    ((observed_velocity (45/10) (75/100) x y).vz ≠ 0 →
      79 < |(y : ℤ) - 240| ∧
      (((observed_velocity (45/10) (75/100) x y).vz = -(75/100) ∧ y < 160) ∨
       ((observed_velocity (45/10) (75/100) x y).vz = 75/100 ∧ 320 ≤ y))) ∧
    auto_velocity (45/10) (75/100) true GridZone.TOP_RIGHT = ⟨0, 45/10, -(75/100), 0⟩ := by
  refine ⟨?_, ?_, by simp [auto_velocity, zeroVel]⟩ <;>
  · unfold observed_velocity
    rw [get_face_zone_640_480]
    split_ifs <;>
      simp only [auto_velocity, zeroVel, List.mem_cons, List.not_mem_nil, or_false,
        reduceCtorEq, or_self, if_true, if_false, ne_eq, not_true_eq_false,
        not_false_eq_true, false_implies, true_implies, if_neg, if_pos] <;>
      norm_num <;>
      constructor <;>
      first
        | (rw [lt_abs]; omega)
        | omega

/-- Witness for C6 at the concrete observation center (500, 50), which
lies in TOP_RIGHT with both offsets beyond the dead zones. -/
theorem C6_deadzone_gating_witness :
    105 < |(500 : ℤ) - 320| ∧
    (((observed_velocity (45/10) (75/100) 500 50).vy = -(45/10) ∧ 500 < 213) ∨
     ((observed_velocity (45/10) (75/100) 500 50).vy = 45/10 ∧ 426 ≤ 500)) :=
  (C6_deadzone_gating 500 50).1
    (by
      have h : (observed_velocity (45/10) (75/100) 500 50).vy = 45/10 := by
        simp [observed_velocity, get_face_zone_640_480, auto_velocity, zeroVel]
      rw [h]
      norm_num)
